import Mathlib

/-!
Verification of the hit volume-query engine of `TRestHitsEvent.cxx`
(repository juanangp/legacylib).

The embedding models C++ doubles as real numbers.  The event state is the
pair of the hit list `fHits` and the mutable total-energy field
`fTotEnergy`; every query method is embedded as a function returning its
result together with the (unchanged) state, mirroring the fact that the
C++ method bodies never assign to any member.

The helper class `TRestHits` (methods `isHitNInsideCylinder`,
`isHitNInsidePrism`, `GetNumberOfHitsInsideCylinder`, `GetEnergyInCylinder`,
`GetMeanPositionInCylinder` and the prism analogues) is not part of the
sources; those definitions are modelled from the specification text and are
marked as such in their doc comments.
-/

namespace LegacyLib

open Classical

/-- Model of ROOT TVector3: three real coordinates. -/
structure Vec3 where
  x : ℝ
  y : ℝ
  z : ℝ

/-- Componentwise difference of two vectors, as `x1 - x0` in the source. -/
def Vec3.sub (a b : Vec3) : Vec3 := ⟨a.x - b.x, a.y - b.y, a.z - b.z⟩

/-- Model of TVector3::Dot. -/
def Vec3.dot (a b : Vec3) : ℝ := a.x * b.x + a.y * b.y + a.z * b.z

/-- Model of TVector3::Mag2, the squared Euclidean norm. -/
def Vec3.mag2 (a : Vec3) : ℝ := a.x * a.x + a.y * a.y + a.z * a.z

/-- Model of TVector3::Mag, the Euclidean norm. -/
noncomputable def Vec3.mag (a : Vec3) : ℝ := Real.sqrt a.mag2

/-- Modelled from the spec: the REST_HitType tag values (the header defining
the enum is not among the sources).  The spec describes a divisibility-style
composition in which an XYZ hit passes every 2D/1D projection test of the
form `type % tag == 0`; the standard prime-product encoding realises it. -/
def typeX : ℕ := 2

/-- Modelled from the spec: REST_HitType tag Y. -/
def typeY : ℕ := 3

/-- Modelled from the spec: REST_HitType tag Z. -/
def typeZ : ℕ := 5

/-- Modelled from the spec: REST_HitType tag XY. -/
def typeXY : ℕ := 6

/-- Modelled from the spec: REST_HitType tag XZ. -/
def typeXZ : ℕ := 10

/-- Modelled from the spec: REST_HitType tag YZ. -/
def typeYZ : ℕ := 15

/-- Modelled from the spec: REST_HitType tag XYZ. -/
def typeXYZ : ℕ := 30

/-- One energy deposit: position, energy, time and coordinate-validity tag. -/
structure Hit where
  pos : Vec3
  energy : ℝ
  time : ℝ
  type : ℕ

/-- The observable state of a TRestHitsEvent: the hit list `fHits` together
with the mutable field `fHits.fTotEnergy` written by
`CalculateTotalDepositedEnergy`. -/
structure HitsState where
  fHits : List Hit
  fTotEnergy : ℝ

namespace TRestHits

/-- Modelled from the spec: the cylinder containment predicate of
`TRestHits::isHitNInsideCylinder` (not among the sources).  With
`axis = x1 - x0`, `L = |axis|` and `l = axis.(P - x0)/L`, the hit at `P` is
inside iff `0 <= l <= L` and the perpendicular part satisfies
`|P - x0|^2 - l^2 <= radius^2` (boundary inclusive, per the spec). -/
noncomputable def isHitInsideCylinder (p x0 x1 : Vec3) (radius : ℝ) : Bool :=
  let axis := Vec3.sub x1 x0
  let cylLength := axis.mag
  let v := Vec3.sub p x0
  let l := axis.dot v / cylLength
  decide (0 ≤ l ∧ l ≤ cylLength ∧ v.mag2 - l * l ≤ radius * radius)

/-- Modelled from the spec: the prism containment predicate of
`TRestHits::isHitNInsidePrism` (not among the sources).  The displacement
`P - x0` is rotated by the angle `theta` about the prism axis; the rotation
only affects the two in-plane coordinates, realised here as the x and y
components (the canonical frame used by all of the spec scenarios, whose
axes run along z).  The hit is inside iff `0 <= l <= L`, `|u| <= sizeX/2`
and `|v| <= sizeY/2` for the rotated in-plane coordinates `(u, v)`. -/
noncomputable def isHitInsidePrism (p x0 x1 : Vec3) (sizeX sizeY theta : ℝ) : Bool :=
  let axis := Vec3.sub x1 x0
  let prismLength := axis.mag
  let w := Vec3.sub p x0
  let l := axis.dot w / prismLength
  let u := w.x * Real.cos theta - w.y * Real.sin theta
  let v := w.x * Real.sin theta + w.y * Real.cos theta
  decide (0 ≤ l ∧ l ≤ prismLength ∧ |u| ≤ sizeX / 2 ∧ |v| ≤ sizeY / 2)

/-- Modelled from the spec: `TRestHits::GetNumberOfHitsInsideCylinder`, the
count of hits satisfying the cylinder containment predicate. -/
noncomputable def GetNumberOfHitsInsideCylinder (hits : List Hit) (x0 x1 : Vec3)
    (radius : ℝ) : ℕ :=
  hits.countP (fun h => isHitInsideCylinder h.pos x0 x1 radius)

/-- Modelled from the spec: `TRestHits::GetEnergyInCylinder`, the energy sum
over the contained hits (0 when none is contained). -/
noncomputable def GetEnergyInCylinder (hits : List Hit) (x0 x1 : Vec3)
    (radius : ℝ) : ℝ :=
  ((hits.filter (fun h => isHitInsideCylinder h.pos x0 x1 radius)).map Hit.energy).sum

/-- Modelled from the spec: `TRestHits::GetMeanPositionInCylinder`, the
arithmetic mean of x, y, z independently over the contained hits. -/
noncomputable def GetMeanPositionInCylinder (hits : List Hit) (x0 x1 : Vec3)
    (radius : ℝ) : Vec3 :=
  let inside := hits.filter (fun h => isHitInsideCylinder h.pos x0 x1 radius)
  ⟨(inside.map (fun h => h.pos.x)).sum / inside.length,
   (inside.map (fun h => h.pos.y)).sum / inside.length,
   (inside.map (fun h => h.pos.z)).sum / inside.length⟩

/-- Modelled from the spec: `TRestHits::GetNumberOfHitsInsidePrism`. -/
noncomputable def GetNumberOfHitsInsidePrism (hits : List Hit) (x0 x1 : Vec3)
    (sizeX sizeY theta : ℝ) : ℕ :=
  hits.countP (fun h => isHitInsidePrism h.pos x0 x1 sizeX sizeY theta)

/-- Modelled from the spec: `TRestHits::GetEnergyInPrism`. -/
noncomputable def GetEnergyInPrism (hits : List Hit) (x0 x1 : Vec3)
    (sizeX sizeY theta : ℝ) : ℝ :=
  ((hits.filter (fun h => isHitInsidePrism h.pos x0 x1 sizeX sizeY theta)).map Hit.energy).sum

/-- Modelled from the spec: `TRestHits::GetMeanPositionInPrism`. -/
noncomputable def GetMeanPositionInPrism (hits : List Hit) (x0 x1 : Vec3)
    (sizeX sizeY theta : ℝ) : Vec3 :=
  let inside := hits.filter (fun h => isHitInsidePrism h.pos x0 x1 sizeX sizeY theta)
  ⟨(inside.map (fun h => h.pos.x)).sum / inside.length,
   (inside.map (fun h => h.pos.y)).sum / inside.length,
   (inside.map (fun h => h.pos.z)).sum / inside.length⟩

end TRestHits

namespace TRestHitsEvent

/-- The loop shared by the six closest-distance methods of the source: a
single pass over the hits that, for each hit passing the containment
predicate, lowers the running value `hitDistance` to the per-hit value when
the latter is smaller and increments the counter `nhits`. -/
noncomputable def closestLoop (pred : Hit → Bool) (value : Hit → ℝ) :
    List Hit → ℝ × ℕ → ℝ × ℕ
  | [], acc => acc
  | h :: t, (hitDistance, nhits) =>
      if pred h then
        closestLoop pred value t (min hitDistance (value h), nhits + 1)
      else
        closestLoop pred value t (hitDistance, nhits)

/-- TRestHitsEvent::GetNumberOfHits, the size of `fHits`. -/
def GetNumberOfHits (s : HitsState) : ℕ := s.fHits.length

/-- TRestHitsEvent::anyHitInsideCylinder (source lines 238-242): true iff the
number of hits inside the cylinder is positive. -/
noncomputable def anyHitInsideCylinder (s : HitsState) (x0 x1 : Vec3)
    (radius : ℝ) : Bool × HitsState :=
  (decide (0 < TRestHits.GetNumberOfHitsInsideCylinder s.fHits x0 x1 radius), s)

/-- TRestHitsEvent::allHitsInsideCylinder (source lines 251-255): true iff the
number of hits inside the cylinder equals the total number of hits. -/
noncomputable def allHitsInsideCylinder (s : HitsState) (x0 x1 : Vec3)
    (radius : ℝ) : Bool × HitsState :=
  (decide (TRestHits.GetNumberOfHitsInsideCylinder s.fHits x0 x1 radius
            = GetNumberOfHits s), s)

/-- TRestHitsEvent::GetEnergyInCylinder, delegating to the hit list. -/
noncomputable def GetEnergyInCylinder (s : HitsState) (x0 x1 : Vec3)
    (radius : ℝ) : ℝ × HitsState :=
  (TRestHits.GetEnergyInCylinder s.fHits x0 x1 radius, s)

/-- TRestHitsEvent::GetNumberOfHitsInsideCylinder, delegating to the hit
list. -/
noncomputable def GetNumberOfHitsInsideCylinder (s : HitsState) (x0 x1 : Vec3)
    (radius : ℝ) : ℕ × HitsState :=
  (TRestHits.GetNumberOfHitsInsideCylinder s.fHits x0 x1 radius, s)

/-- TRestHitsEvent::GetMeanPositionInCylinder, delegating to the hit list. -/
noncomputable def GetMeanPositionInCylinder (s : HitsState) (x0 x1 : Vec3)
    (radius : ℝ) : Vec3 × HitsState :=
  (TRestHits.GetMeanPositionInCylinder s.fHits x0 x1 radius, s)

/-- TRestHitsEvent::anyHitInsidePrism (source lines 302-307). -/
noncomputable def anyHitInsidePrism (s : HitsState) (x0 x1 : Vec3)
    (sizeX sizeY theta : ℝ) : Bool × HitsState :=
  (decide (0 < TRestHits.GetNumberOfHitsInsidePrism s.fHits x0 x1 sizeX sizeY theta), s)

/-- TRestHitsEvent::allHitsInsidePrism (source lines 318-323). -/
noncomputable def allHitsInsidePrism (s : HitsState) (x0 x1 : Vec3)
    (sizeX sizeY theta : ℝ) : Bool × HitsState :=
  (decide (TRestHits.GetNumberOfHitsInsidePrism s.fHits x0 x1 sizeX sizeY theta
            = GetNumberOfHits s), s)

/-- TRestHitsEvent::GetEnergyInPrism, delegating to the hit list. -/
noncomputable def GetEnergyInPrism (s : HitsState) (x0 x1 : Vec3)
    (sizeX sizeY theta : ℝ) : ℝ × HitsState :=
  (TRestHits.GetEnergyInPrism s.fHits x0 x1 sizeX sizeY theta, s)

/-- TRestHitsEvent::GetNumberOfHitsInsidePrism, delegating to the hit list. -/
noncomputable def GetNumberOfHitsInsidePrism (s : HitsState) (x0 x1 : Vec3)
    (sizeX sizeY theta : ℝ) : ℕ × HitsState :=
  (TRestHits.GetNumberOfHitsInsidePrism s.fHits x0 x1 sizeX sizeY theta, s)

/-- TRestHitsEvent::GetMeanPositionInPrism, delegating to the hit list. -/
noncomputable def GetMeanPositionInPrism (s : HitsState) (x0 x1 : Vec3)
    (sizeX sizeY theta : ℝ) : Vec3 × HitsState :=
  (TRestHits.GetMeanPositionInPrism s.fHits x0 x1 sizeX sizeY theta, s)

/-- TRestHitsEvent::GetClosestHitInsideDistanceToCylinderWall (source lines
380-406): the running value starts at `radius^2`; each contained hit
contributes `radius^2 - |P - x0|^2 + l^2` with `l = axis.(P - x0)/L`; the
result is -1 when no hit is contained and otherwise the square root of the
final running value. -/
noncomputable def GetClosestHitInsideDistanceToCylinderWall (s : HitsState)
    (x0 x1 : Vec3) (radius : ℝ) : ℝ × HitsState :=
  let rad2 := radius * radius
  let axis := Vec3.sub x1 x0
  let cylLength := axis.mag
  let res := closestLoop (fun h => TRestHits.isHitInsideCylinder h.pos x0 x1 radius)
    (fun h =>
      let l := axis.dot (Vec3.sub h.pos x0) / cylLength
      rad2 - (Vec3.sub h.pos x0).mag2 + l * l)
    s.fHits (rad2, 0)
  (if res.2 = 0 then -1 else Real.sqrt res.1, s)

/-- TRestHitsEvent::GetClosestHitInsideDistanceToCylinderTop (source lines
418-439): the running value starts at the cylinder length `L`; each
contained hit contributes `L - l`; -1 when no hit is contained. -/
noncomputable def GetClosestHitInsideDistanceToCylinderTop (s : HitsState)
    (x0 x1 : Vec3) (radius : ℝ) : ℝ × HitsState :=
  let axis := Vec3.sub x1 x0
  let cylLength := axis.mag
  let res := closestLoop (fun h => TRestHits.isHitInsideCylinder h.pos x0 x1 radius)
    (fun h => cylLength - axis.dot (Vec3.sub h.pos x0) / cylLength)
    s.fHits (cylLength, 0)
  (if res.2 = 0 then -1 else res.1, s)

/-- TRestHitsEvent::GetClosestHitInsideDistanceToCylinderBottom (source lines
451-473): the running value starts at the cylinder length `L`; each
contained hit contributes `l`; -1 when no hit is contained. -/
noncomputable def GetClosestHitInsideDistanceToCylinderBottom (s : HitsState)
    (x0 x1 : Vec3) (radius : ℝ) : ℝ × HitsState :=
  let axis := Vec3.sub x1 x0
  let cylLength := axis.mag
  let res := closestLoop (fun h => TRestHits.isHitInsideCylinder h.pos x0 x1 radius)
    (fun h => axis.dot (Vec3.sub h.pos x0) / cylLength)
    s.fHits (cylLength, 0)
  (if res.2 = 0 then -1 else res.1, s)

/-- TRestHitsEvent::GetClosestHitInsideDistanceToPrismWall (source lines
487-512): the running value starts at `max (sizeX/2) (sizeY/2)`; each
contained hit contributes `min (sizeX/2 - |(P - x0).x|) (sizeY/2 - |(P - x0).y|)`
computed from the UNROTATED global x and y components of the displacement;
-1 when no hit is contained. -/
noncomputable def GetClosestHitInsideDistanceToPrismWall (s : HitsState)
    (x0 x1 : Vec3) (sizeX sizeY theta : ℝ) : ℝ × HitsState :=
  let res := closestLoop
    (fun h => TRestHits.isHitInsidePrism h.pos x0 x1 sizeX sizeY theta)
    (fun h =>
      let dX := sizeX / 2 - |(Vec3.sub h.pos x0).x|
      let dY := sizeY / 2 - |(Vec3.sub h.pos x0).y|
      min dX dY)
    s.fHits (max (sizeX / 2) (sizeY / 2), 0)
  (if res.2 = 0 then -1 else res.1, s)

/-- TRestHitsEvent::GetClosestHitInsideDistanceToPrismTop (source lines
526-548): as the cylinder top case, with the prism containment predicate. -/
noncomputable def GetClosestHitInsideDistanceToPrismTop (s : HitsState)
    (x0 x1 : Vec3) (sizeX sizeY theta : ℝ) : ℝ × HitsState :=
  let axis := Vec3.sub x1 x0
  let prismLength := axis.mag
  let res := closestLoop
    (fun h => TRestHits.isHitInsidePrism h.pos x0 x1 sizeX sizeY theta)
    (fun h => prismLength - axis.dot (Vec3.sub h.pos x0) / prismLength)
    s.fHits (prismLength, 0)
  (if res.2 = 0 then -1 else res.1, s)

/-- TRestHitsEvent::GetClosestHitInsideDistanceToPrismBottom (source lines
562-584): as the cylinder bottom case, with the prism containment
predicate. -/
noncomputable def GetClosestHitInsideDistanceToPrismBottom (s : HitsState)
    (x0 x1 : Vec3) (sizeX sizeY theta : ℝ) : ℝ × HitsState :=
  let axis := Vec3.sub x1 x0
  let prismLength := axis.mag
  let res := closestLoop
    (fun h => TRestHits.isHitInsidePrism h.pos x0 x1 sizeX sizeY theta)
    (fun h => axis.dot (Vec3.sub h.pos x0) / prismLength)
    s.fHits (prismLength, 0)
  (if res.2 = 0 then -1 else res.1, s)

/-- TRestHitsEvent::GetXZHits (source lines 185-194): collects exactly the
hits whose type EQUALS the XZ tag, re-adding each with tag XZ. -/
def GetXZHits (s : HitsState) : List Hit :=
  (s.fHits.filter (fun h => h.type == typeXZ)).map (fun h => { h with type := typeXZ })

/-- TRestHitsEvent::GetYZHits (source lines 203-212): collects exactly the
hits whose type EQUALS the YZ tag, re-adding each with tag YZ. -/
def GetYZHits (s : HitsState) : List Hit :=
  (s.fHits.filter (fun h => h.type == typeYZ)).map (fun h => { h with type := typeYZ })

/-- TRestHitsEvent::GetXYZHits (source lines 220-229): collects exactly the
hits whose type EQUALS the XYZ tag. -/
def GetXYZHits (s : HitsState) : List Hit :=
  (s.fHits.filter (fun h => h.type == typeXYZ)).map (fun h => { h with type := typeXYZ })

/-- The divisibility-style projection-compatibility test `type % XZ == 0`
used by TRestHitsEvent::DrawGraphs (line 730) and DrawHistograms (line 930). -/
def selectsXZ (type : ℕ) : Bool := type % typeXZ == 0

/-- The projection test `type % YZ == 0` of DrawGraphs (line 736). -/
def selectsYZ (type : ℕ) : Bool := type % typeYZ == 0

/-- The projection test `type % XY == 0` of DrawGraphs (line 742). -/
def selectsXY (type : ℕ) : Bool := type % typeXY == 0

/-- The projection test `type % X == 0` of DrawHistograms (line 945). -/
def selectsX (type : ℕ) : Bool := type % typeX == 0

/-- The projection test `type % Y == 0` of DrawHistograms (line 950). -/
def selectsY (type : ℕ) : Bool := type % typeY == 0

/-- The projection test `type % Z == 0` of DrawHistograms (line 955). -/
def selectsZ (type : ℕ) : Bool := type % typeZ == 0

/-- TRestHitsEvent::CalculateTotalDepositedEnergy (source lines 586-591):
sums `GetEnergy(i)` over all hits, stores the sum into `fHits.fTotEnergy`
and returns it. -/
def CalculateTotalDepositedEnergy (s : HitsState) : ℝ × HitsState :=
  let sum := s.fHits.foldl (fun acc h => acc + h.energy) 0
  (sum, { fHits := s.fHits, fTotEnergy := sum })

end TRestHitsEvent

/-! Spec-side vocabulary used to state the claims. -/

/-- The signed axial coordinate `l = axis.(P - x0)/L` of a position `p`. -/
noncomputable def axialCoord (x0 x1 p : Vec3) : ℝ :=
  (Vec3.sub x1 x0).dot (Vec3.sub p x0) / (Vec3.sub x1 x0).mag

/-- The sublist of hits contained in the cylinder, in their original order. -/
noncomputable def containedInCylinder (hits : List Hit) (x0 x1 : Vec3)
    (radius : ℝ) : List Hit :=
  hits.filter (fun h => TRestHits.isHitInsideCylinder h.pos x0 x1 radius)

/-- The sublist of hits contained in the prism, in their original order. -/
noncomputable def containedInPrism (hits : List Hit) (x0 x1 : Vec3)
    (sizeX sizeY theta : ℝ) : List Hit :=
  hits.filter (fun h => TRestHits.isHitInsidePrism h.pos x0 x1 sizeX sizeY theta)

/-- The quantity `radius^2 - |P - x0|^2 + l^2` whose square root the
cylinder-wall query minimises. -/
noncomputable def cylWallTerm (x0 x1 : Vec3) (radius : ℝ) (h : Hit) : ℝ :=
  radius * radius - (Vec3.sub h.pos x0).mag2
    + axialCoord x0 x1 h.pos * axialCoord x0 x1 h.pos

/-- The per-hit prism wall margin the SOURCE computes: from the unrotated
global x and y components of the displacement. -/
noncomputable def prismWallMarginGlobal (x0 : Vec3) (sizeX sizeY : ℝ) (h : Hit) : ℝ :=
  min (sizeX / 2 - |(Vec3.sub h.pos x0).x|) (sizeY / 2 - |(Vec3.sub h.pos x0).y|)

/-- The per-hit prism wall margin the CLAIM describes: from the in-plane
coordinates of the displacement after rotating by theta about the axis. -/
noncomputable def prismWallMarginLocal (x0 : Vec3) (sizeX sizeY theta : ℝ) (h : Hit) : ℝ :=
  let w := Vec3.sub h.pos x0
  min (sizeX / 2 - |w.x * Real.cos theta - w.y * Real.sin theta|)
      (sizeY / 2 - |w.x * Real.sin theta + w.y * Real.cos theta|)

/-- The prism-wall distance exactly as claim C2 words it: per contained hit
the min of the ROTATED local margins, minimised across contained hits
starting from the sentinel `max (sizeX/2) (sizeY/2)`, and -1 when no hit is
contained. -/
noncomputable def claimPrismWallDistance (hits : List Hit) (x0 x1 : Vec3)
    (sizeX sizeY theta : ℝ) : ℝ :=
  let inside := containedInPrism hits x0 x1 sizeX sizeY theta
  if inside = [] then -1
  else (inside.map (prismWallMarginLocal x0 sizeX sizeY theta)).foldl min
        (max (sizeX / 2) (sizeY / 2))

/-! Helper lemmas. -/

theorem closestLoop_eq (pred : Hit → Bool) (value : Hit → ℝ) :
    ∀ (hits : List Hit) (d0 : ℝ) (n0 : ℕ),
      TRestHitsEvent.closestLoop pred value hits (d0, n0)
        = (((hits.filter pred).map value).foldl min d0,
           n0 + (hits.filter pred).length)
  | [], d0, n0 => by simp [TRestHitsEvent.closestLoop]
  | h :: t, d0, n0 => by
      by_cases hp : pred h
      · simp only [TRestHitsEvent.closestLoop, hp, if_true,
          closestLoop_eq pred value t (min d0 (value h)) (n0 + 1),
          List.filter_cons, List.map_cons, List.foldl_cons, List.length_cons]
        congr 1
        omega
      · simp only [TRestHitsEvent.closestLoop, hp, if_false,
          closestLoop_eq pred value t d0 n0, List.filter_cons]
        simp [hp]

theorem foldl_min_le_init (l : List ℝ) (b : ℝ) : l.foldl min b ≤ b := by
  induction l generalizing b with
  | nil => simp
  | cons x t ih => exact le_trans (ih (min b x)) (min_le_left b x)

theorem foldl_min_le_mem {l : List ℝ} {x : ℝ} (hx : x ∈ l) (b : ℝ) :
    l.foldl min b ≤ x := by
  induction l generalizing b with
  | nil => cases hx
  | cons y t ih =>
      rcases List.mem_cons.mp hx with rfl | hx
      · exact le_trans (foldl_min_le_init t (min b x)) (min_le_right b x)
      · exact ih hx (min b y)

theorem le_foldl_min {l : List ℝ} {c : ℝ} (hb : c ≤ b)
    (hl : ∀ x ∈ l, c ≤ x) : c ≤ l.foldl min b := by
  induction l generalizing b with
  | nil => simpa using hb
  | cons x t ih =>
      exact ih (le_min hb (hl x (List.mem_cons_self x t)))
        (fun y hy => hl y (List.mem_cons_of_mem x hy))

theorem foldl_min_mem (l : List ℝ) (b : ℝ) :
    l.foldl min b = b ∨ l.foldl min b ∈ l := by
  induction l generalizing b with
  | nil => left; rfl
  | cons x t ih =>
      rcases ih (min b x) with h | h
      · rcases le_total b x with hbx | hxb
        · left; rw [List.foldl_cons, h, min_eq_left hbx]
        · right
          rw [List.foldl_cons, h, min_eq_right hxb]
          exact List.mem_cons_self x t
      · right; exact List.mem_cons_of_mem x h

theorem dot_sq_le_mag2_mul (a v : Vec3) :
    a.dot v * a.dot v ≤ a.mag2 * v.mag2 := by
  simp only [Vec3.dot, Vec3.mag2]
  nlinarith [sq_nonneg (a.x * v.y - a.y * v.x), sq_nonneg (a.x * v.z - a.z * v.x),
    sq_nonneg (a.y * v.z - a.z * v.y)]

theorem mag2_nonneg (a : Vec3) : 0 ≤ a.mag2 := by
  simp only [Vec3.mag2]
  nlinarith [mul_self_nonneg a.x, mul_self_nonneg a.y, mul_self_nonneg a.z]

theorem mag_sq (a : Vec3) : a.mag * a.mag = a.mag2 := by
  simpa [Vec3.mag] using Real.mul_self_sqrt (mag2_nonneg a)

/-- The square of the axial coordinate never exceeds the squared length of
the displacement (Cauchy-Schwarz; the degenerate zero-length axis yields an
axial coordinate of 0). -/
theorem axialCoord_sq_le (x0 x1 p : Vec3) :
    axialCoord x0 x1 p * axialCoord x0 x1 p ≤ (Vec3.sub p x0).mag2 := by
  set a := Vec3.sub x1 x0
  set v := Vec3.sub p x0
  rcases eq_or_ne a.mag 0 with hz | hz
  · simp [axialCoord, hz, mag2_nonneg v]
  · have hm2 : a.mag2 ≠ 0 := by
      intro h0
      exact hz (by simp [Vec3.mag, h0])
    have hpos : 0 < a.mag2 := lt_of_le_of_ne (mag2_nonneg a) (Ne.symm hm2)
    have : axialCoord x0 x1 p * axialCoord x0 x1 p
        = a.dot v * a.dot v / a.mag2 := by
      simp only [axialCoord]
      rw [div_mul_div_comm, mag_sq]
    rw [this, div_le_iff₀ hpos]
    calc a.dot v * a.dot v ≤ a.mag2 * v.mag2 := dot_sq_le_mag2_mul a v
      _ = v.mag2 * a.mag2 := mul_comm _ _

theorem isHitInsideCylinder_iff (p x0 x1 : Vec3) (radius : ℝ) :
    TRestHits.isHitInsideCylinder p x0 x1 radius = true ↔
      (0 ≤ axialCoord x0 x1 p ∧ axialCoord x0 x1 p ≤ (Vec3.sub x1 x0).mag ∧
        (Vec3.sub p x0).mag2 - axialCoord x0 x1 p * axialCoord x0 x1 p
          ≤ radius * radius) := by
  simp [TRestHits.isHitInsideCylinder, axialCoord]

theorem closestLoop_val (pred : Hit → Bool) (value : Hit → ℝ) (hits : List Hit)
    (init : ℝ) :
    (TRestHitsEvent.closestLoop pred value hits (init, 0)).1
      = ((hits.filter pred).map value).foldl min init := by
  rw [closestLoop_eq]

theorem closestLoop_count (pred : Hit → Bool) (value : Hit → ℝ) (hits : List Hit)
    (init : ℝ) :
    (TRestHitsEvent.closestLoop pred value hits (init, 0)).2
      = (hits.filter pred).length := by
  rw [closestLoop_eq]
  omega

/-- Characterisation of a fold of `min` over a nonempty list whose entries
all lie below the initial value: the fold is attained by a list entry and
bounds every entry from below. -/
theorem foldl_min_char {l : List ℝ} {b : ℝ} (hne : l ≠ [])
    (hb : ∀ x ∈ l, x ≤ b) :
    (∃ x ∈ l, l.foldl min b = x) ∧ ∀ x ∈ l, l.foldl min b ≤ x := by
  refine ⟨?_, fun x hx => foldl_min_le_mem hx b⟩
  rcases foldl_min_mem l b with h | h
  · obtain ⟨y, hy⟩ := List.exists_mem_of_ne_nil l hne
    have h1 : l.foldl min b ≤ y := foldl_min_le_mem hy b
    have h2 : y ≤ b := hb y hy
    exact ⟨y, hy, le_antisymm h1 (by rw [h]; exact h2)⟩
  · exact ⟨_, h, rfl⟩

theorem foldl_add_energy (l : List Hit) : ∀ c : ℝ,
    l.foldl (fun acc h => acc + h.energy) c = c + (l.map Hit.energy).sum := by
  induction l with
  | nil => intro c; simp
  | cons h t ih =>
      intro c
      simp only [List.foldl_cons, List.map_cons, List.sum_cons, ih (c + h.energy)]
      ring

theorem mag_nonneg (a : Vec3) : 0 ≤ a.mag := Real.sqrt_nonneg _

theorem sub_zero_vec (p : Vec3) : Vec3.sub p ⟨0, 0, 0⟩ = p := by
  cases p; simp [Vec3.sub]

theorem mag_of_z {c : ℝ} (hc : 0 ≤ c) : Vec3.mag ⟨0, 0, c⟩ = c := by
  simp only [Vec3.mag, Vec3.mag2]
  rw [show (0 : ℝ) * 0 + 0 * 0 + c * c = c * c by ring, Real.sqrt_mul_self hc]

theorem axialCoord_z {c : ℝ} (hc : 0 < c) (p : Vec3) :
    axialCoord ⟨0, 0, 0⟩ ⟨0, 0, c⟩ p = p.z := by
  have hs : Vec3.sub ⟨0, 0, c⟩ ⟨0, 0, 0⟩ = ⟨0, 0, c⟩ := by simp [Vec3.sub]
  simp only [axialCoord, hs, sub_zero_vec, mag_of_z hc.le, Vec3.dot]
  field_simp

theorem isHitInsidePrism_iff (p x0 x1 : Vec3) (sizeX sizeY theta : ℝ) :
    TRestHits.isHitInsidePrism p x0 x1 sizeX sizeY theta = true ↔
      (0 ≤ axialCoord x0 x1 p ∧ axialCoord x0 x1 p ≤ (Vec3.sub x1 x0).mag ∧
        |(Vec3.sub p x0).x * Real.cos theta - (Vec3.sub p x0).y * Real.sin theta|
          ≤ sizeX / 2 ∧
        |(Vec3.sub p x0).x * Real.sin theta + (Vec3.sub p x0).y * Real.cos theta|
          ≤ sizeY / 2) := by
  simp [TRestHits.isHitInsidePrism, axialCoord]

theorem mem_containedInCylinder {hits : List Hit} {x0 x1 : Vec3} {radius : ℝ}
    {h : Hit} (hm : h ∈ containedInCylinder hits x0 x1 radius) :
    0 ≤ axialCoord x0 x1 h.pos ∧ axialCoord x0 x1 h.pos ≤ (Vec3.sub x1 x0).mag ∧
      (Vec3.sub h.pos x0).mag2 - axialCoord x0 x1 h.pos * axialCoord x0 x1 h.pos
        ≤ radius * radius :=
  (isHitInsideCylinder_iff _ _ _ _).mp (List.mem_filter.mp hm).2

theorem mem_containedInPrism {hits : List Hit} {x0 x1 : Vec3}
    {sizeX sizeY theta : ℝ} {h : Hit}
    (hm : h ∈ containedInPrism hits x0 x1 sizeX sizeY theta) :
    0 ≤ axialCoord x0 x1 h.pos ∧ axialCoord x0 x1 h.pos ≤ (Vec3.sub x1 x0).mag ∧
      |(Vec3.sub h.pos x0).x * Real.cos theta - (Vec3.sub h.pos x0).y * Real.sin theta|
        ≤ sizeX / 2 ∧
      |(Vec3.sub h.pos x0).x * Real.sin theta + (Vec3.sub h.pos x0).y * Real.cos theta|
        ≤ sizeY / 2 :=
  (isHitInsidePrism_iff _ _ _ _ _ _).mp (List.mem_filter.mp hm).2

/-! Closed-form result shapes of the six closest-distance methods: a
conditional on the list of contained hits, with the loop replaced by a fold
of `min` over the mapped per-hit values. -/

theorem cylWall_result (s : HitsState) (x0 x1 : Vec3) (radius : ℝ) :
    (TRestHitsEvent.GetClosestHitInsideDistanceToCylinderWall s x0 x1 radius).1
      = if (containedInCylinder s.fHits x0 x1 radius).length = 0 then -1
        else Real.sqrt (((containedInCylinder s.fHits x0 x1 radius).map
          (cylWallTerm x0 x1 radius)).foldl min (radius * radius)) := by
  simp only [TRestHitsEvent.GetClosestHitInsideDistanceToCylinderWall,
    containedInCylinder, cylWallTerm, axialCoord, closestLoop_val, closestLoop_count]
  rfl

theorem cylTop_result (s : HitsState) (x0 x1 : Vec3) (radius : ℝ) :
    (TRestHitsEvent.GetClosestHitInsideDistanceToCylinderTop s x0 x1 radius).1
      = if (containedInCylinder s.fHits x0 x1 radius).length = 0 then -1
        else ((containedInCylinder s.fHits x0 x1 radius).map
          (fun h => (Vec3.sub x1 x0).mag - axialCoord x0 x1 h.pos)).foldl min
          (Vec3.sub x1 x0).mag := by
  simp only [TRestHitsEvent.GetClosestHitInsideDistanceToCylinderTop,
    containedInCylinder, axialCoord, closestLoop_val, closestLoop_count]

theorem cylBottom_result (s : HitsState) (x0 x1 : Vec3) (radius : ℝ) :
    (TRestHitsEvent.GetClosestHitInsideDistanceToCylinderBottom s x0 x1 radius).1
      = if (containedInCylinder s.fHits x0 x1 radius).length = 0 then -1
        else ((containedInCylinder s.fHits x0 x1 radius).map
          (fun h => axialCoord x0 x1 h.pos)).foldl min (Vec3.sub x1 x0).mag := by
  simp only [TRestHitsEvent.GetClosestHitInsideDistanceToCylinderBottom,
    containedInCylinder, axialCoord, closestLoop_val, closestLoop_count]

theorem prismWall_result (s : HitsState) (x0 x1 : Vec3) (sizeX sizeY theta : ℝ) :
    (TRestHitsEvent.GetClosestHitInsideDistanceToPrismWall s x0 x1 sizeX sizeY theta).1
      = if (containedInPrism s.fHits x0 x1 sizeX sizeY theta).length = 0 then -1
        else ((containedInPrism s.fHits x0 x1 sizeX sizeY theta).map
          (prismWallMarginGlobal x0 sizeX sizeY)).foldl min
          (max (sizeX / 2) (sizeY / 2)) := by
  simp only [TRestHitsEvent.GetClosestHitInsideDistanceToPrismWall,
    containedInPrism, prismWallMarginGlobal, closestLoop_val, closestLoop_count]
  rfl

theorem prismTop_result (s : HitsState) (x0 x1 : Vec3) (sizeX sizeY theta : ℝ) :
    (TRestHitsEvent.GetClosestHitInsideDistanceToPrismTop s x0 x1 sizeX sizeY theta).1
      = if (containedInPrism s.fHits x0 x1 sizeX sizeY theta).length = 0 then -1
        else ((containedInPrism s.fHits x0 x1 sizeX sizeY theta).map
          (fun h => (Vec3.sub x1 x0).mag - axialCoord x0 x1 h.pos)).foldl min
          (Vec3.sub x1 x0).mag := by
  simp only [TRestHitsEvent.GetClosestHitInsideDistanceToPrismTop,
    containedInPrism, axialCoord, closestLoop_val, closestLoop_count]

theorem prismBottom_result (s : HitsState) (x0 x1 : Vec3) (sizeX sizeY theta : ℝ) :
    (TRestHitsEvent.GetClosestHitInsideDistanceToPrismBottom s x0 x1 sizeX sizeY theta).1
      = if (containedInPrism s.fHits x0 x1 sizeX sizeY theta).length = 0 then -1
        else ((containedInPrism s.fHits x0 x1 sizeX sizeY theta).map
          (fun h => axialCoord x0 x1 h.pos)).foldl min (Vec3.sub x1 x0).mag := by
  simp only [TRestHitsEvent.GetClosestHitInsideDistanceToPrismBottom,
    containedInPrism, axialCoord, closestLoop_val, closestLoop_count]

theorem meanPositionInCylinder_eq (hits : List Hit) (x0 x1 : Vec3) (radius : ℝ) :
    TRestHits.GetMeanPositionInCylinder hits x0 x1 radius
      = ⟨((containedInCylinder hits x0 x1 radius).map (fun h => h.pos.x)).sum
          / (containedInCylinder hits x0 x1 radius).length,
         ((containedInCylinder hits x0 x1 radius).map (fun h => h.pos.y)).sum
          / (containedInCylinder hits x0 x1 radius).length,
         ((containedInCylinder hits x0 x1 radius).map (fun h => h.pos.z)).sum
          / (containedInCylinder hits x0 x1 radius).length⟩ := rfl

theorem meanPositionInPrism_eq (hits : List Hit) (x0 x1 : Vec3)
    (sizeX sizeY theta : ℝ) :
    TRestHits.GetMeanPositionInPrism hits x0 x1 sizeX sizeY theta
      = ⟨((containedInPrism hits x0 x1 sizeX sizeY theta).map (fun h => h.pos.x)).sum
          / (containedInPrism hits x0 x1 sizeX sizeY theta).length,
         ((containedInPrism hits x0 x1 sizeX sizeY theta).map (fun h => h.pos.y)).sum
          / (containedInPrism hits x0 x1 sizeX sizeY theta).length,
         ((containedInPrism hits x0 x1 sizeX sizeY theta).map (fun h => h.pos.z)).sum
          / (containedInPrism hits x0 x1 sizeX sizeY theta).length⟩ := rfl

/-! Claim theorems. -/

/-- C10: CalculateTotalDepositedEnergy returns the sum of the hit energies
(0 for an empty collection, the sum of the empty list), overwrites the
stored total-energy field with that sum, and leaves the hit list - hence
every individual hit - unchanged. -/
theorem C10_calculate_total_deposited_energy (s : HitsState) :
    (TRestHitsEvent.CalculateTotalDepositedEnergy s).1 = (s.fHits.map Hit.energy).sum ∧
    (TRestHitsEvent.CalculateTotalDepositedEnergy s).2.fTotEnergy
      = (s.fHits.map Hit.energy).sum ∧
    (TRestHitsEvent.CalculateTotalDepositedEnergy s).2.fHits = s.fHits := by
  simp [TRestHitsEvent.CalculateTotalDepositedEnergy, foldl_add_energy]

/-- C9 counterexample: the claim says a hit of type XYZ is selected by the
check that collects XZ-compatible hits, but GetXZHits compares the tag for
EQUALITY with XZ, so a one-hit collection of type XYZ yields an empty
XZ collection. -/
theorem C9_counterexample :
    TRestHitsEvent.GetXZHits ⟨[⟨⟨1, 2, 3⟩, 1, 0, typeXYZ⟩], 0⟩ = [] := by
  simp [TRestHitsEvent.GetXZHits, typeXYZ, typeXZ]

/-- C9 (amended): a hit tagged XYZ passes every divisibility-style
projection test of the engine (the `type % tag == 0` checks of DrawGraphs
and DrawHistograms), but the GetXZHits and GetYZHits collectors select
exactly the hits whose tag EQUALS XZ resp. YZ, so an XYZ hit is not
collected by them. -/
theorem C9_xyz_projection :
    (TRestHitsEvent.selectsXZ typeXYZ = true ∧ TRestHitsEvent.selectsYZ typeXYZ = true ∧
     TRestHitsEvent.selectsXY typeXYZ = true ∧ TRestHitsEvent.selectsX typeXYZ = true ∧
     TRestHitsEvent.selectsY typeXYZ = true ∧ TRestHitsEvent.selectsZ typeXYZ = true) ∧
    ∀ s : HitsState,
      TRestHitsEvent.GetXZHits s = s.fHits.filter (fun h => h.type == typeXZ) ∧
      TRestHitsEvent.GetYZHits s = s.fHits.filter (fun h => h.type == typeYZ) := by
  constructor
  · refine ⟨?_, ?_, ?_, ?_, ?_, ?_⟩ <;> decide
  · intro s
    constructor
    · rw [TRestHitsEvent.GetXZHits]
      have : ∀ h ∈ s.fHits.filter (fun h => h.type == typeXZ),
          ({ h with type := typeXZ } : Hit) = h := by
        intro h hm
        have ht : h.type = typeXZ := by
          have := (List.mem_filter.mp hm).2
          simpa using this
        cases h
        simp_all
      rw [List.map_congr_left this]; exact List.map_id _
    · rw [TRestHitsEvent.GetYZHits]
      have : ∀ h ∈ s.fHits.filter (fun h => h.type == typeYZ),
          ({ h with type := typeYZ } : Hit) = h := by
        intro h hm
        have ht : h.type = typeYZ := by
          have := (List.mem_filter.mp hm).2
          simpa using this
        cases h
        simp_all
      rw [List.map_congr_left this]; exact List.map_id _

/-- C3 counterexample: the claim says both anyHitInside and allHitsInside
are false on an empty collection, but on an empty collection the count of
contained hits (0) equals the total number of hits (0), so
allHitsInsideCylinder returns true. -/
theorem C3_counterexample :
    (TRestHitsEvent.allHitsInsideCylinder ⟨[], 0⟩ ⟨0, 0, 0⟩ ⟨0, 0, 1⟩ 1).1 = true := by
  simp [TRestHitsEvent.allHitsInsideCylinder, TRestHits.GetNumberOfHitsInsideCylinder,
    TRestHitsEvent.GetNumberOfHits]

/-- C3 (amended): for both volumes, on a non-empty collection allHitsInside
implies anyHitInside; on an empty collection anyHitInside returns false
while allHitsInside returns true (vacuously: the count 0 equals the hit
count 0). -/
theorem C3_any_all_inside (s : HitsState) (x0 x1 : Vec3)
    (radius sizeX sizeY theta : ℝ) :
    (s.fHits ≠ [] →
      ((TRestHitsEvent.allHitsInsideCylinder s x0 x1 radius).1 = true →
        (TRestHitsEvent.anyHitInsideCylinder s x0 x1 radius).1 = true) ∧
      ((TRestHitsEvent.allHitsInsidePrism s x0 x1 sizeX sizeY theta).1 = true →
        (TRestHitsEvent.anyHitInsidePrism s x0 x1 sizeX sizeY theta).1 = true)) ∧
    (s.fHits = [] →
      (TRestHitsEvent.anyHitInsideCylinder s x0 x1 radius).1 = false ∧
      (TRestHitsEvent.anyHitInsidePrism s x0 x1 sizeX sizeY theta).1 = false ∧
      (TRestHitsEvent.allHitsInsideCylinder s x0 x1 radius).1 = true ∧
      (TRestHitsEvent.allHitsInsidePrism s x0 x1 sizeX sizeY theta).1 = true) := by
  constructor
  · intro hne
    have hlen : 0 < s.fHits.length := List.length_pos.mpr hne
    constructor
    · intro hall
      simp only [TRestHitsEvent.allHitsInsideCylinder, TRestHitsEvent.GetNumberOfHits,
        decide_eq_true_eq] at hall
      simp only [TRestHitsEvent.anyHitInsideCylinder, decide_eq_true_eq]
      omega
    · intro hall
      simp only [TRestHitsEvent.allHitsInsidePrism, TRestHitsEvent.GetNumberOfHits,
        decide_eq_true_eq] at hall
      simp only [TRestHitsEvent.anyHitInsidePrism, decide_eq_true_eq]
      omega
  · intro he
    simp only [TRestHitsEvent.anyHitInsideCylinder, TRestHitsEvent.anyHitInsidePrism,
      TRestHitsEvent.allHitsInsideCylinder, TRestHitsEvent.allHitsInsidePrism,
      TRestHits.GetNumberOfHitsInsideCylinder, TRestHits.GetNumberOfHitsInsidePrism,
      TRestHitsEvent.GetNumberOfHits, he, List.countP_nil, List.length_nil]
    simp

/-- C3 witness: the amended statement applied on the empty collection (the
hypothesis of its second conjunct is discharged by rfl). -/
theorem C3_any_all_inside_witness :
    (TRestHitsEvent.anyHitInsideCylinder ⟨[], 0⟩ ⟨0, 0, 0⟩ ⟨0, 0, 1⟩ 1).1 = false :=
  ((C3_any_all_inside ⟨[], 0⟩ ⟨0, 0, 0⟩ ⟨0, 0, 1⟩ 1 1 1 0).2 rfl).1

/-- C1: the cylinder-wall query returns -1 when no hit is contained;
otherwise it returns the square root of the running minimum - initialised at
radius^2 - of `radius^2 - |P - x0|^2 + l^2` over the contained hits, and
that value is the minimum over the contained hits of
`sqrt (radius^2 - |P - x0|^2 + l^2)`: it is attained at a contained hit and
bounds the value of every contained hit from below. -/
theorem C1_cylinder_wall_closest (s : HitsState) (x0 x1 : Vec3) (radius : ℝ) :
    (containedInCylinder s.fHits x0 x1 radius = [] →
      (TRestHitsEvent.GetClosestHitInsideDistanceToCylinderWall s x0 x1 radius).1 = -1) ∧
    (containedInCylinder s.fHits x0 x1 radius ≠ [] →
      (TRestHitsEvent.GetClosestHitInsideDistanceToCylinderWall s x0 x1 radius).1
        = Real.sqrt (((containedInCylinder s.fHits x0 x1 radius).map
            (cylWallTerm x0 x1 radius)).foldl min (radius * radius)) ∧
      (∃ h ∈ containedInCylinder s.fHits x0 x1 radius,
        (TRestHitsEvent.GetClosestHitInsideDistanceToCylinderWall s x0 x1 radius).1
          = Real.sqrt (cylWallTerm x0 x1 radius h)) ∧
      ∀ h ∈ containedInCylinder s.fHits x0 x1 radius,
        (TRestHitsEvent.GetClosestHitInsideDistanceToCylinderWall s x0 x1 radius).1
          ≤ Real.sqrt (cylWallTerm x0 x1 radius h)) := by
  have hres := cylWall_result s x0 x1 radius
  constructor
  · intro hnil
    rw [hres, hnil]
    simp
  · intro hne
    have hlen : (containedInCylinder s.fHits x0 x1 radius).length ≠ 0 :=
      fun h0 => hne (List.length_eq_zero.mp h0)
    rw [hres, if_neg hlen]
    refine ⟨rfl, ?_⟩
    have hb : ∀ x ∈ (containedInCylinder s.fHits x0 x1 radius).map
        (cylWallTerm x0 x1 radius), x ≤ radius * radius := by
      intro x hx
      obtain ⟨h, hh, rfl⟩ := List.mem_map.mp hx
      have hcs := axialCoord_sq_le x0 x1 h.pos
      simp only [cylWallTerm]
      linarith
    have hmapne : (containedInCylinder s.fHits x0 x1 radius).map
        (cylWallTerm x0 x1 radius) ≠ [] := by
      intro h0
      exact hne (List.map_eq_nil_iff.mp h0)
    obtain ⟨⟨x, hx, hfx⟩, hall⟩ := foldl_min_char hmapne hb
    constructor
    · obtain ⟨h, hh, rfl⟩ := List.mem_map.mp hx
      exact ⟨h, hh, by rw [hfx]⟩
    · intro h hh
      exact Real.sqrt_le_sqrt (hall _ (List.mem_map_of_mem _ hh))

/-- C1 witness: the theorem applied to an empty collection on concrete
inputs, discharging the empty-containment hypothesis. -/
theorem C1_cylinder_wall_closest_witness :
    (TRestHitsEvent.GetClosestHitInsideDistanceToCylinderWall ⟨[], 0⟩ ⟨0, 0, 0⟩
      ⟨0, 0, 10⟩ 5).1 = -1 :=
  (C1_cylinder_wall_closest ⟨[], 0⟩ ⟨0, 0, 0⟩ ⟨0, 0, 10⟩ 5).1 (by
    simp [containedInCylinder])

/-- C5: the cylinder top query returns the minimum over contained hits of
`L - l` and the bottom query the minimum over contained hits of `l` (each
attained at a contained hit and a lower bound for all contained hits); both
return -1 when no hit is contained. -/
theorem C5_cylinder_top_bottom_closest (s : HitsState) (x0 x1 : Vec3) (radius : ℝ) :
    (containedInCylinder s.fHits x0 x1 radius = [] →
      (TRestHitsEvent.GetClosestHitInsideDistanceToCylinderTop s x0 x1 radius).1 = -1 ∧
      (TRestHitsEvent.GetClosestHitInsideDistanceToCylinderBottom s x0 x1 radius).1 = -1) ∧
    (containedInCylinder s.fHits x0 x1 radius ≠ [] →
      ((∃ h ∈ containedInCylinder s.fHits x0 x1 radius,
          (TRestHitsEvent.GetClosestHitInsideDistanceToCylinderTop s x0 x1 radius).1
            = (Vec3.sub x1 x0).mag - axialCoord x0 x1 h.pos) ∧
        (∀ h ∈ containedInCylinder s.fHits x0 x1 radius,
          (TRestHitsEvent.GetClosestHitInsideDistanceToCylinderTop s x0 x1 radius).1
            ≤ (Vec3.sub x1 x0).mag - axialCoord x0 x1 h.pos)) ∧
      ((∃ h ∈ containedInCylinder s.fHits x0 x1 radius,
          (TRestHitsEvent.GetClosestHitInsideDistanceToCylinderBottom s x0 x1 radius).1
            = axialCoord x0 x1 h.pos) ∧
        (∀ h ∈ containedInCylinder s.fHits x0 x1 radius,
          (TRestHitsEvent.GetClosestHitInsideDistanceToCylinderBottom s x0 x1 radius).1
            ≤ axialCoord x0 x1 h.pos))) := by
  have hrestop := cylTop_result s x0 x1 radius
  have hresbot := cylBottom_result s x0 x1 radius
  constructor
  · intro hnil
    rw [hrestop, hresbot, hnil]
    simp
  · intro hne
    have hlen : (containedInCylinder s.fHits x0 x1 radius).length ≠ 0 :=
      fun h0 => hne (List.length_eq_zero.mp h0)
    rw [hrestop, hresbot, if_neg hlen, if_neg hlen]
    constructor
    · have hb : ∀ x ∈ (containedInCylinder s.fHits x0 x1 radius).map
          (fun h => (Vec3.sub x1 x0).mag - axialCoord x0 x1 h.pos),
          x ≤ (Vec3.sub x1 x0).mag := by
        intro x hx
        obtain ⟨h, hh, rfl⟩ := List.mem_map.mp hx
        have := (mem_containedInCylinder hh).1
        linarith
      have hmapne : (containedInCylinder s.fHits x0 x1 radius).map
          (fun h => (Vec3.sub x1 x0).mag - axialCoord x0 x1 h.pos) ≠ [] :=
        fun h0 => hne (List.map_eq_nil_iff.mp h0)
      obtain ⟨⟨x, hx, hfx⟩, hall⟩ := foldl_min_char hmapne hb
      constructor
      · obtain ⟨h, hh, rfl⟩ := List.mem_map.mp hx
        exact ⟨h, hh, hfx⟩
      · intro h hh
        exact hall _ (List.mem_map_of_mem _ hh)
    · have hb : ∀ x ∈ (containedInCylinder s.fHits x0 x1 radius).map
          (fun h => axialCoord x0 x1 h.pos), x ≤ (Vec3.sub x1 x0).mag := by
        intro x hx
        obtain ⟨h, hh, rfl⟩ := List.mem_map.mp hx
        exact (mem_containedInCylinder hh).2.1
      have hmapne : (containedInCylinder s.fHits x0 x1 radius).map
          (fun h => axialCoord x0 x1 h.pos) ≠ [] :=
        fun h0 => hne (List.map_eq_nil_iff.mp h0)
      obtain ⟨⟨x, hx, hfx⟩, hall⟩ := foldl_min_char hmapne hb
      constructor
      · obtain ⟨h, hh, rfl⟩ := List.mem_map.mp hx
        exact ⟨h, hh, hfx⟩
      · intro h hh
        exact hall _ (List.mem_map_of_mem _ hh)

/-- C5 witness: the empty-collection branch of the theorem on concrete
inputs. -/
theorem C5_cylinder_top_bottom_closest_witness :
    (TRestHitsEvent.GetClosestHitInsideDistanceToCylinderTop ⟨[], 0⟩ ⟨0, 0, 0⟩
      ⟨0, 0, 10⟩ 5).1 = -1 :=
  ((C5_cylinder_top_bottom_closest ⟨[], 0⟩ ⟨0, 0, 0⟩ ⟨0, 0, 10⟩ 5).1 (by
    simp [containedInCylinder])).1

/-- The hit at (0, 9/10, 2) is contained in the prism with x0 = (0,0,0),
x1 = (0,0,4), sizeX = 2, sizeY = 4 rotated by pi/2: its rotated in-plane
coordinates are (-9/10, 0). -/
theorem insidePrism_rotated_sample :
    TRestHits.isHitInsidePrism ⟨0, 9/10, 2⟩ ⟨0, 0, 0⟩ ⟨0, 0, 4⟩ 2 4 (Real.pi / 2)
      = true := by
  rw [isHitInsidePrism_iff]
  have hax : axialCoord ⟨0, 0, 0⟩ ⟨0, 0, 4⟩ ⟨0, 9/10, 2⟩ = 2 := by
    rw [axialCoord_z (by norm_num)]
  have hm : Vec3.mag (Vec3.sub ⟨0, 0, 4⟩ ⟨0, 0, 0⟩) = 4 := by
    rw [show Vec3.sub ⟨0, 0, 4⟩ ⟨0, 0, 0⟩ = (⟨0, 0, 4⟩ : Vec3) by simp [Vec3.sub]]
    exact mag_of_z (by norm_num)
  rw [hax, hm]
  simp only [Vec3.sub, Real.cos_pi_div_two, Real.sin_pi_div_two]
  norm_num
  rw [abs_le]
  norm_num

/-- The hit at (2, 0, 2) is contained in the same rotated prism: its rotated
in-plane coordinates are (0, 2), on the boundary |v| = sizeY/2. -/
theorem insidePrism_rotated_boundary :
    TRestHits.isHitInsidePrism ⟨2, 0, 2⟩ ⟨0, 0, 0⟩ ⟨0, 0, 4⟩ 2 4 (Real.pi / 2)
      = true := by
  rw [isHitInsidePrism_iff]
  have hax : axialCoord ⟨0, 0, 0⟩ ⟨0, 0, 4⟩ ⟨2, 0, 2⟩ = 2 := by
    rw [axialCoord_z (by norm_num)]
  have hm : Vec3.mag (Vec3.sub ⟨0, 0, 4⟩ ⟨0, 0, 0⟩) = 4 := by
    rw [show Vec3.sub ⟨0, 0, 4⟩ ⟨0, 0, 0⟩ = (⟨0, 0, 4⟩ : Vec3) by simp [Vec3.sub]]
    exact mag_of_z (by norm_num)
  rw [hax, hm]
  simp only [Vec3.sub, Real.cos_pi_div_two, Real.sin_pi_div_two]
  norm_num

/-- C2 counterexample: for the prism x0 = (0,0,0), x1 = (0,0,4), sizeX = 2,
sizeY = 4, theta = pi/2 and a single contained hit at (0, 9/10, 2), the
claim's rotated-local-margin formula yields 1/10 while the source - which
uses the unrotated global x and y components - returns 1. -/
theorem C2_counterexample :
    claimPrismWallDistance [⟨⟨0, 9/10, 2⟩, 1, 0, 30⟩] ⟨0, 0, 0⟩ ⟨0, 0, 4⟩ 2 4
        (Real.pi / 2) = 1 / 10 ∧
    (TRestHitsEvent.GetClosestHitInsideDistanceToPrismWall
        ⟨[⟨⟨0, 9/10, 2⟩, 1, 0, 30⟩], 0⟩ ⟨0, 0, 0⟩ ⟨0, 0, 4⟩ 2 4 (Real.pi / 2)).1 = 1 ∧
    (1 : ℝ) ≠ 1 / 10 := by
  have hfil2 : List.filter
      (fun h => TRestHits.isHitInsidePrism h.pos ⟨0, 0, 0⟩ ⟨0, 0, 4⟩ 2 4 (Real.pi / 2))
      ([⟨⟨0, 9/10, 2⟩, 1, 0, 30⟩] : List Hit) = [⟨⟨0, 9/10, 2⟩, 1, 0, 30⟩] := by
    simp [List.filter, insidePrism_rotated_sample]
  have hfil : containedInPrism [⟨⟨0, 9/10, 2⟩, 1, 0, 30⟩] ⟨0, 0, 0⟩ ⟨0, 0, 4⟩ 2 4
      (Real.pi / 2) = [⟨⟨0, 9/10, 2⟩, 1, 0, 30⟩] := by
    simp only [containedInPrism]
    exact hfil2
  refine ⟨?_, ?_, by norm_num⟩
  · simp only [claimPrismWallDistance, hfil]
    rw [if_neg (by simp)]
    simp only [List.map_cons, List.map_nil, List.foldl_cons, List.foldl_nil,
      prismWallMarginLocal, Vec3.sub]
    rw [Real.cos_pi_div_two, Real.sin_pi_div_two]
    norm_num
    rw [abs_of_nonneg (by norm_num : (0:ℝ) ≤ 9/10)]
    norm_num [min_def]
  · simp only [TRestHitsEvent.GetClosestHitInsideDistanceToPrismWall,
      closestLoop_val, closestLoop_count, hfil2]
    simp only [List.map_cons, List.map_nil, List.foldl_cons, List.foldl_nil,
      List.length_cons, List.length_nil, Vec3.sub]
    rw [if_neg (by norm_num),
      abs_of_nonneg (by norm_num : (0:ℝ) ≤ 9/10 - 0)]
    norm_num [min_def, max_def]

/-- C2 (amended): the prism-wall query computes, for each contained hit,
`dX = sizeX/2 - |(P - x0).x|` and `dY = sizeY/2 - |(P - x0).y|` from the
UNROTATED global x and y components of the displacement (theta enters only
through the containment predicate), takes `min dX dY` per hit and the
minimum across contained hits starting from the sentinel
`max (sizeX/2) (sizeY/2)`, and returns -1 when no hit is contained. -/
theorem C2_prism_wall_closest (s : HitsState) (x0 x1 : Vec3)
    (sizeX sizeY theta : ℝ) :
    (TRestHitsEvent.GetClosestHitInsideDistanceToPrismWall s x0 x1 sizeX sizeY theta).1
      = if containedInPrism s.fHits x0 x1 sizeX sizeY theta = [] then -1
        else ((containedInPrism s.fHits x0 x1 sizeX sizeY theta).map
          (prismWallMarginGlobal x0 sizeX sizeY)).foldl min
          (max (sizeX / 2) (sizeY / 2)) := by
  have hres := prismWall_result s x0 x1 sizeX sizeY theta
  rw [hres]
  by_cases hnil : containedInPrism s.fHits x0 x1 sizeX sizeY theta = []
  · rw [if_pos (by rw [hnil]; rfl), if_pos hnil]
  · rw [if_neg (fun h0 => hnil (List.length_eq_zero.mp h0)), if_neg hnil]

/-- C4 counterexample: for the prism x0 = (0,0,0), x1 = (0,0,4), sizeX = 2,
sizeY = 4, theta = pi/2 and the hit at (2, 0, 2), the hit is contained
(count 1) yet the prism-wall query returns the sentinel -1: the unrotated
margin sizeX/2 - |x| = -1 is negative, contradicting the claimed
equivalence of -1 with an empty containment count. -/
theorem C4_counterexample :
    TRestHits.GetNumberOfHitsInsidePrism [⟨⟨2, 0, 2⟩, 1, 0, 30⟩] ⟨0, 0, 0⟩ ⟨0, 0, 4⟩
        2 4 (Real.pi / 2) = 1 ∧
    (TRestHitsEvent.GetClosestHitInsideDistanceToPrismWall
        ⟨[⟨⟨2, 0, 2⟩, 1, 0, 30⟩], 0⟩ ⟨0, 0, 0⟩ ⟨0, 0, 4⟩ 2 4 (Real.pi / 2)).1 = -1 := by
  have hfil2 : List.filter
      (fun h => TRestHits.isHitInsidePrism h.pos ⟨0, 0, 0⟩ ⟨0, 0, 4⟩ 2 4 (Real.pi / 2))
      ([⟨⟨2, 0, 2⟩, 1, 0, 30⟩] : List Hit) = [⟨⟨2, 0, 2⟩, 1, 0, 30⟩] := by
    simp [List.filter, insidePrism_rotated_boundary]
  constructor
  · simp [TRestHits.GetNumberOfHitsInsidePrism, List.countP_cons, List.countP_nil,
      insidePrism_rotated_boundary]
  · simp only [TRestHitsEvent.GetClosestHitInsideDistanceToPrismWall,
      closestLoop_val, closestLoop_count, hfil2]
    simp only [List.map_cons, List.map_nil, List.foldl_cons, List.foldl_nil,
      List.length_cons, List.length_nil, Vec3.sub]
    rw [if_neg (by norm_num), abs_of_nonneg (by norm_num : (0:ℝ) ≤ 2 - 0)]
    norm_num [min_def, max_def]

/-- C4 (amended): each closest-distance query returns -1 when the count of
contained hits is 0.  Conversely, for the three cylinder queries and the
prism top and bottom queries, -1 is returned ONLY in that case, and the
same holds for the prism wall query provided theta = 0 (for a rotated prism
the unrotated wall margins can be negative and reach -1 with contained
hits).  Moreover, whenever the count is nonzero each returned value is at
most the corresponding maximum possible margin: |radius| for the cylinder
wall, the axis length for the four top and bottom queries, and
max (sizeX/2) (sizeY/2) for the prism wall. -/
theorem C4_sentinel_and_bounds (s : HitsState) (x0 x1 : Vec3)
    (radius sizeX sizeY theta : ℝ) :
    ((TRestHitsEvent.GetClosestHitInsideDistanceToCylinderWall s x0 x1 radius).1 = -1 ↔
      TRestHits.GetNumberOfHitsInsideCylinder s.fHits x0 x1 radius = 0) ∧
    ((TRestHitsEvent.GetClosestHitInsideDistanceToCylinderTop s x0 x1 radius).1 = -1 ↔
      TRestHits.GetNumberOfHitsInsideCylinder s.fHits x0 x1 radius = 0) ∧
    ((TRestHitsEvent.GetClosestHitInsideDistanceToCylinderBottom s x0 x1 radius).1 = -1 ↔
      TRestHits.GetNumberOfHitsInsideCylinder s.fHits x0 x1 radius = 0) ∧
    ((TRestHitsEvent.GetClosestHitInsideDistanceToPrismTop s x0 x1 sizeX sizeY theta).1
        = -1 ↔
      TRestHits.GetNumberOfHitsInsidePrism s.fHits x0 x1 sizeX sizeY theta = 0) ∧
    ((TRestHitsEvent.GetClosestHitInsideDistanceToPrismBottom s x0 x1 sizeX sizeY theta).1
        = -1 ↔
      TRestHits.GetNumberOfHitsInsidePrism s.fHits x0 x1 sizeX sizeY theta = 0) ∧
    (TRestHits.GetNumberOfHitsInsidePrism s.fHits x0 x1 sizeX sizeY theta = 0 →
      (TRestHitsEvent.GetClosestHitInsideDistanceToPrismWall s x0 x1 sizeX sizeY theta).1
        = -1) ∧
    (theta = 0 →
      ((TRestHitsEvent.GetClosestHitInsideDistanceToPrismWall s x0 x1 sizeX sizeY theta).1
          = -1 ↔
        TRestHits.GetNumberOfHitsInsidePrism s.fHits x0 x1 sizeX sizeY theta = 0)) ∧
    (TRestHits.GetNumberOfHitsInsideCylinder s.fHits x0 x1 radius ≠ 0 →
      (TRestHitsEvent.GetClosestHitInsideDistanceToCylinderWall s x0 x1 radius).1
        ≤ |radius| ∧
      (TRestHitsEvent.GetClosestHitInsideDistanceToCylinderTop s x0 x1 radius).1
        ≤ (Vec3.sub x1 x0).mag ∧
      (TRestHitsEvent.GetClosestHitInsideDistanceToCylinderBottom s x0 x1 radius).1
        ≤ (Vec3.sub x1 x0).mag) ∧
    (TRestHits.GetNumberOfHitsInsidePrism s.fHits x0 x1 sizeX sizeY theta ≠ 0 →
      (TRestHitsEvent.GetClosestHitInsideDistanceToPrismWall s x0 x1 sizeX sizeY theta).1
        ≤ max (sizeX / 2) (sizeY / 2) ∧
      (TRestHitsEvent.GetClosestHitInsideDistanceToPrismTop s x0 x1 sizeX sizeY theta).1
        ≤ (Vec3.sub x1 x0).mag ∧
      (TRestHitsEvent.GetClosestHitInsideDistanceToPrismBottom s x0 x1 sizeX sizeY theta).1
        ≤ (Vec3.sub x1 x0).mag) := by
  have hcntC : TRestHits.GetNumberOfHitsInsideCylinder s.fHits x0 x1 radius
      = (containedInCylinder s.fHits x0 x1 radius).length := by
    simp [TRestHits.GetNumberOfHitsInsideCylinder, containedInCylinder,
      List.countP_eq_length_filter]
  have hcntP : TRestHits.GetNumberOfHitsInsidePrism s.fHits x0 x1 sizeX sizeY theta
      = (containedInPrism s.fHits x0 x1 sizeX sizeY theta).length := by
    simp [TRestHits.GetNumberOfHitsInsidePrism, containedInPrism,
      List.countP_eq_length_filter]
  have hLnn : (0:ℝ) ≤ (Vec3.sub x1 x0).mag := mag_nonneg _
  refine ⟨?_, ?_, ?_, ?_, ?_, ?_, ?_, ?_, ?_⟩
  · rw [cylWall_result, hcntC]
    by_cases h0 : (containedInCylinder s.fHits x0 x1 radius).length = 0
    · simp [h0]
    · rw [if_neg h0]
      refine ⟨fun he => ?_, fun hc => absurd hc h0⟩
      exfalso
      have hnn := Real.sqrt_nonneg (((containedInCylinder s.fHits x0 x1 radius).map
        (cylWallTerm x0 x1 radius)).foldl min (radius * radius))
      rw [he] at hnn
      linarith
  · rw [cylTop_result, hcntC]
    by_cases h0 : (containedInCylinder s.fHits x0 x1 radius).length = 0
    · simp [h0]
    · rw [if_neg h0]
      refine ⟨fun he => ?_, fun hc => absurd hc h0⟩
      exfalso
      have hnn : (0:ℝ) ≤ ((containedInCylinder s.fHits x0 x1 radius).map
          (fun h => (Vec3.sub x1 x0).mag - axialCoord x0 x1 h.pos)).foldl min
          (Vec3.sub x1 x0).mag := by
        refine le_foldl_min hLnn ?_
        intro x hx
        obtain ⟨h, hh, rfl⟩ := List.mem_map.mp hx
        have := (mem_containedInCylinder hh).2.1
        linarith
      rw [he] at hnn
      linarith
  · rw [cylBottom_result, hcntC]
    by_cases h0 : (containedInCylinder s.fHits x0 x1 radius).length = 0
    · simp [h0]
    · rw [if_neg h0]
      refine ⟨fun he => ?_, fun hc => absurd hc h0⟩
      exfalso
      have hnn : (0:ℝ) ≤ ((containedInCylinder s.fHits x0 x1 radius).map
          (fun h => axialCoord x0 x1 h.pos)).foldl min (Vec3.sub x1 x0).mag := by
        refine le_foldl_min hLnn ?_
        intro x hx
        obtain ⟨h, hh, rfl⟩ := List.mem_map.mp hx
        exact (mem_containedInCylinder hh).1
      rw [he] at hnn
      linarith
  · rw [prismTop_result, hcntP]
    by_cases h0 : (containedInPrism s.fHits x0 x1 sizeX sizeY theta).length = 0
    · simp [h0]
    · rw [if_neg h0]
      refine ⟨fun he => ?_, fun hc => absurd hc h0⟩
      exfalso
      have hnn : (0:ℝ) ≤ ((containedInPrism s.fHits x0 x1 sizeX sizeY theta).map
          (fun h => (Vec3.sub x1 x0).mag - axialCoord x0 x1 h.pos)).foldl min
          (Vec3.sub x1 x0).mag := by
        refine le_foldl_min hLnn ?_
        intro x hx
        obtain ⟨h, hh, rfl⟩ := List.mem_map.mp hx
        have := (mem_containedInPrism hh).2.1
        linarith
      rw [he] at hnn
      linarith
  · rw [prismBottom_result, hcntP]
    by_cases h0 : (containedInPrism s.fHits x0 x1 sizeX sizeY theta).length = 0
    · simp [h0]
    · rw [if_neg h0]
      refine ⟨fun he => ?_, fun hc => absurd hc h0⟩
      exfalso
      have hnn : (0:ℝ) ≤ ((containedInPrism s.fHits x0 x1 sizeX sizeY theta).map
          (fun h => axialCoord x0 x1 h.pos)).foldl min (Vec3.sub x1 x0).mag := by
        refine le_foldl_min hLnn ?_
        intro x hx
        obtain ⟨h, hh, rfl⟩ := List.mem_map.mp hx
        exact (mem_containedInPrism hh).1
      rw [he] at hnn
      linarith
  · intro hc
    rw [hcntP] at hc
    rw [prismWall_result, if_pos hc]
  · intro ht
    subst ht
    rw [prismWall_result, hcntP]
    by_cases h0 : (containedInPrism s.fHits x0 x1 sizeX sizeY 0).length = 0
    · simp [h0]
    · rw [if_neg h0]
      refine ⟨fun he => ?_, fun hc => absurd hc h0⟩
      exfalso
      obtain ⟨h0hit, h0mem⟩ := List.exists_mem_of_ne_nil
        (containedInPrism s.fHits x0 x1 sizeX sizeY 0)
        (fun hnil => h0 (by rw [hnil]; rfl))
      have hx0 := (mem_containedInPrism h0mem).2.2.1
      rw [Real.cos_zero, Real.sin_zero] at hx0
      simp only [mul_one, mul_zero, sub_zero] at hx0
      have hinit : (0:ℝ) ≤ max (sizeX / 2) (sizeY / 2) :=
        le_trans (le_trans (abs_nonneg _) hx0) (le_max_left _ _)
      have hnn : (0:ℝ) ≤ ((containedInPrism s.fHits x0 x1 sizeX sizeY 0).map
          (prismWallMarginGlobal x0 sizeX sizeY)).foldl min
          (max (sizeX / 2) (sizeY / 2)) := by
        refine le_foldl_min hinit ?_
        intro x hx
        obtain ⟨h, hh, rfl⟩ := List.mem_map.mp hx
        have hux := (mem_containedInPrism hh).2.2.1
        have huy := (mem_containedInPrism hh).2.2.2
        rw [Real.cos_zero, Real.sin_zero] at hux huy
        simp only [mul_one, mul_zero, sub_zero, zero_add] at hux huy
        exact le_min (by linarith) (by linarith)
      rw [he] at hnn
      linarith
  · intro hc
    rw [hcntC] at hc
    refine ⟨?_, ?_, ?_⟩
    · rw [cylWall_result, if_neg hc]
      calc Real.sqrt (((containedInCylinder s.fHits x0 x1 radius).map
            (cylWallTerm x0 x1 radius)).foldl min (radius * radius))
          ≤ Real.sqrt (radius * radius) :=
            Real.sqrt_le_sqrt (foldl_min_le_init _ _)
        _ = |radius| := Real.sqrt_mul_self_eq_abs radius
    · rw [cylTop_result, if_neg hc]
      exact foldl_min_le_init _ _
    · rw [cylBottom_result, if_neg hc]
      exact foldl_min_le_init _ _
  · intro hc
    rw [hcntP] at hc
    refine ⟨?_, ?_, ?_⟩
    · rw [prismWall_result, if_neg hc]
      exact foldl_min_le_init _ _
    · rw [prismTop_result, if_neg hc]
      exact foldl_min_le_init _ _
    · rw [prismBottom_result, if_neg hc]
      exact foldl_min_le_init _ _

/-- C4 witness: the amended statement applied to the empty collection, whose
prism containment count is 0, forcing the prism-wall sentinel. -/
theorem C4_sentinel_and_bounds_witness :
    (TRestHitsEvent.GetClosestHitInsideDistanceToPrismWall ⟨[], 0⟩ ⟨0, 0, 0⟩
      ⟨0, 0, 4⟩ 2 4 0).1 = -1 :=
  (C4_sentinel_and_bounds ⟨[], 0⟩ ⟨0, 0, 0⟩ ⟨0, 0, 4⟩ 5 2 4 0).2.2.2.2.2.1
    (by simp [TRestHits.GetNumberOfHitsInsidePrism])

/-- The hit at (0, 0, 5) is contained in the cylinder x0 = (0,0,0),
x1 = (0,0,10), radius 5: its axial coordinate is 5 and it lies on the axis. -/
theorem insideCyl_axis_sample :
    TRestHits.isHitInsideCylinder ⟨0, 0, 5⟩ ⟨0, 0, 0⟩ ⟨0, 0, 10⟩ 5 = true := by
  rw [isHitInsideCylinder_iff]
  have hax : axialCoord ⟨0, 0, 0⟩ ⟨0, 0, 10⟩ ⟨0, 0, 5⟩ = 5 := by
    rw [axialCoord_z (by norm_num)]
  have hm : Vec3.mag (Vec3.sub ⟨0, 0, 10⟩ ⟨0, 0, 0⟩) = 10 := by
    rw [show Vec3.sub ⟨0, 0, 10⟩ ⟨0, 0, 0⟩ = (⟨0, 0, 10⟩ : Vec3) by simp [Vec3.sub]]
    exact mag_of_z (by norm_num)
  rw [hax, hm]
  simp only [Vec3.sub, Vec3.mag2]
  norm_num

/-- The hit at (10, 0, 5) is NOT contained in that cylinder: its
perpendicular distance to the axis is 10 > 5. -/
theorem outsideCyl_sample :
    TRestHits.isHitInsideCylinder ⟨10, 0, 5⟩ ⟨0, 0, 0⟩ ⟨0, 0, 10⟩ 5 = false := by
  rw [Bool.eq_false_iff, Ne, isHitInsideCylinder_iff]
  have hax : axialCoord ⟨0, 0, 0⟩ ⟨0, 0, 10⟩ ⟨10, 0, 5⟩ = 5 := by
    rw [axialCoord_z (by norm_num)]
  have hm : Vec3.mag (Vec3.sub ⟨0, 0, 10⟩ ⟨0, 0, 0⟩) = 10 := by
    rw [show Vec3.sub ⟨0, 0, 10⟩ ⟨0, 0, 0⟩ = (⟨0, 0, 10⟩ : Vec3) by simp [Vec3.sub]]
    exact mag_of_z (by norm_num)
  rw [hax, hm]
  simp only [Vec3.sub, Vec3.mag2]
  norm_num

/-- C6: in the cylinder x0 = (0,0,0), x1 = (0,0,10), radius 5, with exactly
the hits (0,0,5) of energy 2 and (10,0,5) - for any energy, times, tags and
stored total energy - the first hit is contained, the second is not, the
contained count is 1, the contained energy is 2, and the wall, top and
bottom closest-distance queries each return 5. -/
theorem C6_concrete_cylinder_scenario (e2 t1 t2 E : ℝ) (ty1 ty2 : ℕ) :
    TRestHits.isHitInsideCylinder ⟨0, 0, 5⟩ ⟨0, 0, 0⟩ ⟨0, 0, 10⟩ 5 = true ∧
    TRestHits.isHitInsideCylinder ⟨10, 0, 5⟩ ⟨0, 0, 0⟩ ⟨0, 0, 10⟩ 5 = false ∧
    (TRestHitsEvent.GetNumberOfHitsInsideCylinder
      ⟨[⟨⟨0, 0, 5⟩, 2, t1, ty1⟩, ⟨⟨10, 0, 5⟩, e2, t2, ty2⟩], E⟩
      ⟨0, 0, 0⟩ ⟨0, 0, 10⟩ 5).1 = 1 ∧
    (TRestHitsEvent.GetEnergyInCylinder
      ⟨[⟨⟨0, 0, 5⟩, 2, t1, ty1⟩, ⟨⟨10, 0, 5⟩, e2, t2, ty2⟩], E⟩
      ⟨0, 0, 0⟩ ⟨0, 0, 10⟩ 5).1 = 2 ∧
    (TRestHitsEvent.GetClosestHitInsideDistanceToCylinderWall
      ⟨[⟨⟨0, 0, 5⟩, 2, t1, ty1⟩, ⟨⟨10, 0, 5⟩, e2, t2, ty2⟩], E⟩
      ⟨0, 0, 0⟩ ⟨0, 0, 10⟩ 5).1 = 5 ∧
    (TRestHitsEvent.GetClosestHitInsideDistanceToCylinderTop
      ⟨[⟨⟨0, 0, 5⟩, 2, t1, ty1⟩, ⟨⟨10, 0, 5⟩, e2, t2, ty2⟩], E⟩
      ⟨0, 0, 0⟩ ⟨0, 0, 10⟩ 5).1 = 5 ∧
    (TRestHitsEvent.GetClosestHitInsideDistanceToCylinderBottom
      ⟨[⟨⟨0, 0, 5⟩, 2, t1, ty1⟩, ⟨⟨10, 0, 5⟩, e2, t2, ty2⟩], E⟩
      ⟨0, 0, 0⟩ ⟨0, 0, 10⟩ 5).1 = 5 := by
  have hax1 : axialCoord ⟨0, 0, 0⟩ ⟨0, 0, 10⟩ (⟨0, 0, 5⟩ : Vec3) = 5 := by
    rw [axialCoord_z (by norm_num)]
  have hm : Vec3.mag (Vec3.sub ⟨0, 0, 10⟩ ⟨0, 0, 0⟩) = 10 := by
    rw [show Vec3.sub ⟨0, 0, 10⟩ ⟨0, 0, 0⟩ = (⟨0, 0, 10⟩ : Vec3) by simp [Vec3.sub]]
    exact mag_of_z (by norm_num)
  have hfil : containedInCylinder
      [⟨⟨0, 0, 5⟩, 2, t1, ty1⟩, ⟨⟨10, 0, 5⟩, e2, t2, ty2⟩] ⟨0, 0, 0⟩ ⟨0, 0, 10⟩ 5
      = [⟨⟨0, 0, 5⟩, 2, t1, ty1⟩] := by
    simp [containedInCylinder, List.filter, insideCyl_axis_sample, outsideCyl_sample]
  refine ⟨insideCyl_axis_sample, outsideCyl_sample, ?_, ?_, ?_, ?_, ?_⟩
  · simp [TRestHitsEvent.GetNumberOfHitsInsideCylinder,
      TRestHits.GetNumberOfHitsInsideCylinder, List.countP_cons, List.countP_nil,
      insideCyl_axis_sample, outsideCyl_sample]
  · simp [TRestHitsEvent.GetEnergyInCylinder, TRestHits.GetEnergyInCylinder,
      List.filter, insideCyl_axis_sample, outsideCyl_sample]
  · rw [cylWall_result]
    simp only [hfil]
    rw [if_neg (by simp)]
    simp only [List.map_cons, List.map_nil, List.foldl_cons, List.foldl_nil,
      cylWallTerm, hax1]
    rw [show Vec3.sub (⟨⟨0, 0, 5⟩, 2, t1, ty1⟩ : Hit).pos ⟨0, 0, 0⟩ = (⟨0, 0, 5⟩ : Vec3)
      by simp [Vec3.sub]]
    simp only [Vec3.mag2]
    norm_num
    rw [show (25 : ℝ) = 5 * 5 by norm_num, Real.sqrt_mul_self (by norm_num : (0:ℝ) ≤ 5)]
  · rw [cylTop_result]
    simp only [hfil]
    rw [if_neg (by simp)]
    simp only [List.map_cons, List.map_nil, List.foldl_cons, List.foldl_nil, hax1, hm]
    norm_num [min_def]
  · rw [cylBottom_result]
    simp only [hfil]
    rw [if_neg (by simp)]
    simp only [List.map_cons, List.map_nil, List.foldl_cons, List.foldl_nil, hax1, hm]
    norm_num [min_def]

/-- C7: every query of the engine - contained count, any, all, energy sum,
mean position and the closest-distance queries, for both the cylinder and
the prism - returns the same result on two hit collections that are
permutations of each other. -/
theorem C7_permutation_invariance (s1 s2 : HitsState)
    (hp : s1.fHits.Perm s2.fHits) (x0 x1 : Vec3)
    (radius sizeX sizeY theta : ℝ) :
    (TRestHitsEvent.GetNumberOfHitsInsideCylinder s1 x0 x1 radius).1
      = (TRestHitsEvent.GetNumberOfHitsInsideCylinder s2 x0 x1 radius).1 ∧
    (TRestHitsEvent.anyHitInsideCylinder s1 x0 x1 radius).1
      = (TRestHitsEvent.anyHitInsideCylinder s2 x0 x1 radius).1 ∧
    (TRestHitsEvent.allHitsInsideCylinder s1 x0 x1 radius).1
      = (TRestHitsEvent.allHitsInsideCylinder s2 x0 x1 radius).1 ∧
    (TRestHitsEvent.GetEnergyInCylinder s1 x0 x1 radius).1
      = (TRestHitsEvent.GetEnergyInCylinder s2 x0 x1 radius).1 ∧
    (TRestHitsEvent.GetMeanPositionInCylinder s1 x0 x1 radius).1
      = (TRestHitsEvent.GetMeanPositionInCylinder s2 x0 x1 radius).1 ∧
    (TRestHitsEvent.GetClosestHitInsideDistanceToCylinderWall s1 x0 x1 radius).1
      = (TRestHitsEvent.GetClosestHitInsideDistanceToCylinderWall s2 x0 x1 radius).1 ∧
    (TRestHitsEvent.GetClosestHitInsideDistanceToCylinderTop s1 x0 x1 radius).1
      = (TRestHitsEvent.GetClosestHitInsideDistanceToCylinderTop s2 x0 x1 radius).1 ∧
    (TRestHitsEvent.GetClosestHitInsideDistanceToCylinderBottom s1 x0 x1 radius).1
      = (TRestHitsEvent.GetClosestHitInsideDistanceToCylinderBottom s2 x0 x1 radius).1 ∧
    (TRestHitsEvent.GetNumberOfHitsInsidePrism s1 x0 x1 sizeX sizeY theta).1
      = (TRestHitsEvent.GetNumberOfHitsInsidePrism s2 x0 x1 sizeX sizeY theta).1 ∧
    (TRestHitsEvent.anyHitInsidePrism s1 x0 x1 sizeX sizeY theta).1
      = (TRestHitsEvent.anyHitInsidePrism s2 x0 x1 sizeX sizeY theta).1 ∧
    (TRestHitsEvent.allHitsInsidePrism s1 x0 x1 sizeX sizeY theta).1
      = (TRestHitsEvent.allHitsInsidePrism s2 x0 x1 sizeX sizeY theta).1 ∧
    (TRestHitsEvent.GetEnergyInPrism s1 x0 x1 sizeX sizeY theta).1
      = (TRestHitsEvent.GetEnergyInPrism s2 x0 x1 sizeX sizeY theta).1 ∧
    (TRestHitsEvent.GetMeanPositionInPrism s1 x0 x1 sizeX sizeY theta).1
      = (TRestHitsEvent.GetMeanPositionInPrism s2 x0 x1 sizeX sizeY theta).1 ∧
    (TRestHitsEvent.GetClosestHitInsideDistanceToPrismWall s1 x0 x1 sizeX sizeY theta).1
      = (TRestHitsEvent.GetClosestHitInsideDistanceToPrismWall s2 x0 x1 sizeX sizeY theta).1 ∧
    (TRestHitsEvent.GetClosestHitInsideDistanceToPrismTop s1 x0 x1 sizeX sizeY theta).1
      = (TRestHitsEvent.GetClosestHitInsideDistanceToPrismTop s2 x0 x1 sizeX sizeY theta).1 ∧
    (TRestHitsEvent.GetClosestHitInsideDistanceToPrismBottom s1 x0 x1 sizeX sizeY theta).1
      = (TRestHitsEvent.GetClosestHitInsideDistanceToPrismBottom s2 x0 x1 sizeX sizeY theta).1
    := by
  have hcntC : TRestHits.GetNumberOfHitsInsideCylinder s1.fHits x0 x1 radius
      = TRestHits.GetNumberOfHitsInsideCylinder s2.fHits x0 x1 radius :=
    hp.countP_eq _
  have hcntP : TRestHits.GetNumberOfHitsInsidePrism s1.fHits x0 x1 sizeX sizeY theta
      = TRestHits.GetNumberOfHitsInsidePrism s2.fHits x0 x1 sizeX sizeY theta :=
    hp.countP_eq _
  have hfilC : (containedInCylinder s1.fHits x0 x1 radius).Perm
      (containedInCylinder s2.fHits x0 x1 radius) := hp.filter _
  have hfilP : (containedInPrism s1.fHits x0 x1 sizeX sizeY theta).Perm
      (containedInPrism s2.fHits x0 x1 sizeX sizeY theta) := hp.filter _
  have hlenC : (containedInCylinder s1.fHits x0 x1 radius).length
      = (containedInCylinder s2.fHits x0 x1 radius).length := hfilC.length_eq
  have hlenP : (containedInPrism s1.fHits x0 x1 sizeX sizeY theta).length
      = (containedInPrism s2.fHits x0 x1 sizeX sizeY theta).length := hfilP.length_eq
  refine ⟨?_, ?_, ?_, ?_, ?_, ?_, ?_, ?_, ?_, ?_, ?_, ?_, ?_, ?_, ?_, ?_⟩
  · simpa [TRestHitsEvent.GetNumberOfHitsInsideCylinder] using hcntC
  · simp [TRestHitsEvent.anyHitInsideCylinder, hcntC]
  · simp [TRestHitsEvent.allHitsInsideCylinder, TRestHitsEvent.GetNumberOfHits,
      hcntC, hp.length_eq]
  · simpa [TRestHitsEvent.GetEnergyInCylinder, TRestHits.GetEnergyInCylinder]
      using (hfilC.map Hit.energy).sum_eq
  · have hsx := (hfilC.map (fun h => h.pos.x)).sum_eq
    have hsy := (hfilC.map (fun h => h.pos.y)).sum_eq
    have hsz := (hfilC.map (fun h => h.pos.z)).sum_eq
    simp only [TRestHitsEvent.GetMeanPositionInCylinder, meanPositionInCylinder_eq]
    rw [hsx, hsy, hsz, hlenC]
  · rw [cylWall_result, cylWall_result, hlenC,
      (hfilC.map (cylWallTerm x0 x1 radius)).foldl_eq'
        (fun x _ y _ z => min_right_comm z x y) (radius * radius)]
  · rw [cylTop_result, cylTop_result, hlenC,
      (hfilC.map (fun h => (Vec3.sub x1 x0).mag - axialCoord x0 x1 h.pos)).foldl_eq'
        (fun x _ y _ z => min_right_comm z x y) (Vec3.sub x1 x0).mag]
  · rw [cylBottom_result, cylBottom_result, hlenC,
      (hfilC.map (fun h => axialCoord x0 x1 h.pos)).foldl_eq'
        (fun x _ y _ z => min_right_comm z x y) (Vec3.sub x1 x0).mag]
  · simpa [TRestHitsEvent.GetNumberOfHitsInsidePrism] using hcntP
  · simp [TRestHitsEvent.anyHitInsidePrism, hcntP]
  · simp [TRestHitsEvent.allHitsInsidePrism, TRestHitsEvent.GetNumberOfHits,
      hcntP, hp.length_eq]
  · simpa [TRestHitsEvent.GetEnergyInPrism, TRestHits.GetEnergyInPrism]
      using (hfilP.map Hit.energy).sum_eq
  · have hsx := (hfilP.map (fun h => h.pos.x)).sum_eq
    have hsy := (hfilP.map (fun h => h.pos.y)).sum_eq
    have hsz := (hfilP.map (fun h => h.pos.z)).sum_eq
    simp only [TRestHitsEvent.GetMeanPositionInPrism, meanPositionInPrism_eq]
    rw [hsx, hsy, hsz, hlenP]
  · rw [prismWall_result, prismWall_result, hlenP,
      (hfilP.map (prismWallMarginGlobal x0 sizeX sizeY)).foldl_eq'
        (fun x _ y _ z => min_right_comm z x y) (max (sizeX / 2) (sizeY / 2))]
  · rw [prismTop_result, prismTop_result, hlenP,
      (hfilP.map (fun h => (Vec3.sub x1 x0).mag - axialCoord x0 x1 h.pos)).foldl_eq'
        (fun x _ y _ z => min_right_comm z x y) (Vec3.sub x1 x0).mag]
  · rw [prismBottom_result, prismBottom_result, hlenP,
      (hfilP.map (fun h => axialCoord x0 x1 h.pos)).foldl_eq'
        (fun x _ y _ z => min_right_comm z x y) (Vec3.sub x1 x0).mag]

/-- C7 witness: the theorem applied to a concrete two-hit collection and its
transposition. -/
theorem C7_permutation_invariance_witness :
    (TRestHitsEvent.GetNumberOfHitsInsideCylinder
      ⟨[⟨⟨0, 0, 5⟩, 2, 0, 30⟩, ⟨⟨10, 0, 5⟩, 1, 0, 30⟩], 0⟩
      ⟨0, 0, 0⟩ ⟨0, 0, 10⟩ 5).1
    = (TRestHitsEvent.GetNumberOfHitsInsideCylinder
      ⟨[⟨⟨10, 0, 5⟩, 1, 0, 30⟩, ⟨⟨0, 0, 5⟩, 2, 0, 30⟩], 0⟩
      ⟨0, 0, 0⟩ ⟨0, 0, 10⟩ 5).1 :=
  (C7_permutation_invariance
    ⟨[⟨⟨0, 0, 5⟩, 2, 0, 30⟩, ⟨⟨10, 0, 5⟩, 1, 0, 30⟩], 0⟩
    ⟨[⟨⟨10, 0, 5⟩, 1, 0, 30⟩, ⟨⟨0, 0, 5⟩, 2, 0, 30⟩], 0⟩
    (List.Perm.swap _ _ _) ⟨0, 0, 0⟩ ⟨0, 0, 10⟩ 5 2 4 0).1

/-- C8: the sixteen containment and aggregation queries are pure: each
returns its state component unchanged (no query modifies the hit collection
or the stored total energy), and each result is a function of the hit list
and the volume parameters alone - in particular it does not read the
mutable total-energy field, the only state a query executed in between
(CalculateTotalDepositedEnergy) can change, so repeated invocations with
equal inputs agree. -/
theorem C8_queries_pure (s1 s2 : HitsState) (h : s1.fHits = s2.fHits)
    (x0 x1 : Vec3) (radius sizeX sizeY theta : ℝ) :
    ((TRestHitsEvent.anyHitInsideCylinder s1 x0 x1 radius).2 = s1 ∧
     (TRestHitsEvent.allHitsInsideCylinder s1 x0 x1 radius).2 = s1 ∧
     (TRestHitsEvent.GetNumberOfHitsInsideCylinder s1 x0 x1 radius).2 = s1 ∧
     (TRestHitsEvent.GetEnergyInCylinder s1 x0 x1 radius).2 = s1 ∧
     (TRestHitsEvent.GetMeanPositionInCylinder s1 x0 x1 radius).2 = s1 ∧
     (TRestHitsEvent.GetClosestHitInsideDistanceToCylinderWall s1 x0 x1 radius).2 = s1 ∧
     (TRestHitsEvent.GetClosestHitInsideDistanceToCylinderTop s1 x0 x1 radius).2 = s1 ∧
     (TRestHitsEvent.GetClosestHitInsideDistanceToCylinderBottom s1 x0 x1 radius).2 = s1 ∧
     (TRestHitsEvent.anyHitInsidePrism s1 x0 x1 sizeX sizeY theta).2 = s1 ∧
     (TRestHitsEvent.allHitsInsidePrism s1 x0 x1 sizeX sizeY theta).2 = s1 ∧
     (TRestHitsEvent.GetNumberOfHitsInsidePrism s1 x0 x1 sizeX sizeY theta).2 = s1 ∧
     (TRestHitsEvent.GetEnergyInPrism s1 x0 x1 sizeX sizeY theta).2 = s1 ∧
     (TRestHitsEvent.GetMeanPositionInPrism s1 x0 x1 sizeX sizeY theta).2 = s1 ∧
     (TRestHitsEvent.GetClosestHitInsideDistanceToPrismWall s1 x0 x1 sizeX sizeY theta).2
       = s1 ∧
     (TRestHitsEvent.GetClosestHitInsideDistanceToPrismTop s1 x0 x1 sizeX sizeY theta).2
       = s1 ∧
     (TRestHitsEvent.GetClosestHitInsideDistanceToPrismBottom s1 x0 x1 sizeX sizeY theta).2
       = s1) ∧
    ((TRestHitsEvent.anyHitInsideCylinder s1 x0 x1 radius).1
       = (TRestHitsEvent.anyHitInsideCylinder s2 x0 x1 radius).1 ∧
     (TRestHitsEvent.allHitsInsideCylinder s1 x0 x1 radius).1
       = (TRestHitsEvent.allHitsInsideCylinder s2 x0 x1 radius).1 ∧
     (TRestHitsEvent.GetNumberOfHitsInsideCylinder s1 x0 x1 radius).1
       = (TRestHitsEvent.GetNumberOfHitsInsideCylinder s2 x0 x1 radius).1 ∧
     (TRestHitsEvent.GetEnergyInCylinder s1 x0 x1 radius).1
       = (TRestHitsEvent.GetEnergyInCylinder s2 x0 x1 radius).1 ∧
     (TRestHitsEvent.GetMeanPositionInCylinder s1 x0 x1 radius).1
       = (TRestHitsEvent.GetMeanPositionInCylinder s2 x0 x1 radius).1 ∧
     (TRestHitsEvent.GetClosestHitInsideDistanceToCylinderWall s1 x0 x1 radius).1
       = (TRestHitsEvent.GetClosestHitInsideDistanceToCylinderWall s2 x0 x1 radius).1 ∧
     (TRestHitsEvent.GetClosestHitInsideDistanceToCylinderTop s1 x0 x1 radius).1
       = (TRestHitsEvent.GetClosestHitInsideDistanceToCylinderTop s2 x0 x1 radius).1 ∧
     (TRestHitsEvent.GetClosestHitInsideDistanceToCylinderBottom s1 x0 x1 radius).1
       = (TRestHitsEvent.GetClosestHitInsideDistanceToCylinderBottom s2 x0 x1 radius).1 ∧
     (TRestHitsEvent.anyHitInsidePrism s1 x0 x1 sizeX sizeY theta).1
       = (TRestHitsEvent.anyHitInsidePrism s2 x0 x1 sizeX sizeY theta).1 ∧
     (TRestHitsEvent.allHitsInsidePrism s1 x0 x1 sizeX sizeY theta).1
       = (TRestHitsEvent.allHitsInsidePrism s2 x0 x1 sizeX sizeY theta).1 ∧
     (TRestHitsEvent.GetNumberOfHitsInsidePrism s1 x0 x1 sizeX sizeY theta).1
       = (TRestHitsEvent.GetNumberOfHitsInsidePrism s2 x0 x1 sizeX sizeY theta).1 ∧
     (TRestHitsEvent.GetEnergyInPrism s1 x0 x1 sizeX sizeY theta).1
       = (TRestHitsEvent.GetEnergyInPrism s2 x0 x1 sizeX sizeY theta).1 ∧
     (TRestHitsEvent.GetMeanPositionInPrism s1 x0 x1 sizeX sizeY theta).1
       = (TRestHitsEvent.GetMeanPositionInPrism s2 x0 x1 sizeX sizeY theta).1 ∧
     (TRestHitsEvent.GetClosestHitInsideDistanceToPrismWall s1 x0 x1 sizeX sizeY theta).1
       = (TRestHitsEvent.GetClosestHitInsideDistanceToPrismWall s2 x0 x1 sizeX sizeY theta).1 ∧
     (TRestHitsEvent.GetClosestHitInsideDistanceToPrismTop s1 x0 x1 sizeX sizeY theta).1
       = (TRestHitsEvent.GetClosestHitInsideDistanceToPrismTop s2 x0 x1 sizeX sizeY theta).1 ∧
     (TRestHitsEvent.GetClosestHitInsideDistanceToPrismBottom s1 x0 x1 sizeX sizeY theta).1
       = (TRestHitsEvent.GetClosestHitInsideDistanceToPrismBottom s2 x0 x1 sizeX sizeY
          theta).1) := by
  obtain ⟨l1, E1⟩ := s1
  obtain ⟨l2, E2⟩ := s2
  have h2 : l1 = l2 := h
  subst h2
  exact ⟨⟨rfl, rfl, rfl, rfl, rfl, rfl, rfl, rfl, rfl, rfl, rfl, rfl, rfl, rfl, rfl, rfl⟩,
    rfl, rfl, rfl, rfl, rfl, rfl, rfl, rfl, rfl, rfl, rfl, rfl, rfl, rfl, rfl, rfl⟩

/-- C8 witness: the theorem applied to two concrete states sharing the hit
list but differing in the stored total energy. -/
theorem C8_queries_pure_witness :
    (TRestHitsEvent.GetEnergyInCylinder ⟨[⟨⟨0, 0, 5⟩, 2, 0, 30⟩], 5⟩
      ⟨0, 0, 0⟩ ⟨0, 0, 10⟩ 5).1
    = (TRestHitsEvent.GetEnergyInCylinder ⟨[⟨⟨0, 0, 5⟩, 2, 0, 30⟩], 7⟩
      ⟨0, 0, 0⟩ ⟨0, 0, 10⟩ 5).1 :=
  (C8_queries_pure ⟨[⟨⟨0, 0, 5⟩, 2, 0, 30⟩], 5⟩ ⟨[⟨⟨0, 0, 5⟩, 2, 0, 30⟩], 7⟩ rfl
    ⟨0, 0, 0⟩ ⟨0, 0, 10⟩ 5 2 4 0).2.2.2.2.1

end LegacyLib
